import Mathlib

/-!
Verification of the client-side data layer of the storefront repository:
the generic HTTP transport client (`src/services/api.client.ts`), the
resource services built on it, and the aggregate state container
(`src/app/context/ShopContext.updated.tsx`).

The transport layer is modelled over a JavaScript-value type `JVal`
(the result of `response.json()`), since the normalization logic branches
on JavaScript truthiness and property presence.  The state container is
modelled as explicit state passing: each React render captures a snapshot
of the state, closures read the captured snapshot, and `setX` calls write
to the store; functional updates (`setX(prev => ...)`) read the store.
JavaScript numbers are modelled as rationals.
-/

namespace Shop

/-- A JavaScript value as produced by `JSON.parse` / `response.json()`:
null, booleans, numbers (modelled as rationals), strings, arrays and
objects.  `undefined` is represented where it can occur (property reads)
as `Option JVal` with `none` for `undefined`. -/
inductive JVal where
  | jnull
  | jbool (b : Bool)
  | jnum (q : ℚ)
  | jstr (s : String)
  | jarr (elems : List JVal)
  | jobj (fields : List (String × JVal))

/-- JavaScript truthiness: `null`, `false`, `0` and the empty string are
falsy; every array and object is truthy. -/
def JVal.truthy : JVal → Bool
  | .jnull => false
  | .jbool b => b
  | .jnum q => decide (q ≠ 0)
  | .jstr s => decide (s ≠ "")
  | .jarr _ => true
  | .jobj _ => true

/-- First binding of a key in an object field list. -/
def lookupField : List (String × JVal) → String → Option JVal
  | [], _ => none
  | (k, v) :: rest, f => if k = f then some v else lookupField rest f

/-- JavaScript property read `v.f`: on `null` it throws a `TypeError`
(the thrown message), on an object it yields the field or `undefined`
(`none`), and on any other value it yields `undefined` (prototype
properties are not modelled). -/
def JVal.getProp : JVal → String → Except String (Option JVal)
  | .jnull, f => .error ("Cannot read properties of null" ++ " (reading " ++ f ++ ")")
  | .jobj fields, f => .ok (lookupField fields f)
  | _, _ => .ok none

/-- Property read on a value known not to be `null`: the `Option` result,
with `none` for `undefined`. -/
def JVal.propD (v : JVal) (f : String) : Option JVal :=
  match v.getProp f with
  | .ok o => o
  | .error _ => none

/-- JavaScript `a || b` where `a` may be `undefined` (`none`). -/
def jsOr (a : Option JVal) (b : JVal) : JVal :=
  match a with
  | none => b
  | some v => if v.truthy then v else b

/-- JavaScript `a || b` for a present value `a`. -/
def jsOrV (a b : JVal) : JVal :=
  if a.truthy then a else b

/-- The `ApiResponse` envelope of `api.client.ts`: optional `data`
payload, a `message`, the numeric `status`, and an optional `errors`
field (only the non-2xx branch sets it). -/
structure ApiResponse where
  data : Option JVal
  message : JVal
  status : Nat
  errors : Option JVal

/-- The parsed body of a response: either well-formed JSON or the
message of the `SyntaxError` thrown by `response.json()`. -/
inductive BodyText where
  | wellFormed (v : JVal)
  | malformed (errMsg : String)

/-- The behaviour of the network for one dispatched request:
the server responds after `arrival` milliseconds with a status and a
body; or the connection fails outright (`fetch` rejects with a
`TypeError` carrying `errMsg`); or something that is not an `Error`
instance is thrown. -/
inductive ServerBehavior where
  | responds (arrival : Nat) (status : Nat) (body : BodyText)
  | unreachable (errMsg : String)
  | throwsNonError

namespace ApiClient

/-- The envelope built by the generic `catch` branch of
`ApiClient.request` for a caught `Error` that is not an `AbortError`:
`{ message: error.message || 'Network error', status: 500 }`. -/
def catchEnvelope (errMsg : String) : ApiResponse :=
  ⟨none, .jstr (if errMsg = "" then "Network error" else errMsg), 500, none⟩

/-- `ApiClient.request` from `api.client.ts`, after URL building and
header injection (which do not affect the returned envelope): the fetch
races an abort timer of `timeout` milliseconds; a response arriving
after the timer yields the synthetic timeout envelope; otherwise the
parsed body is normalized — 2xx statuses produce
`{ data: body.data || body, message: body.message || 'Success', status }`
and other statuses produce
`{ message: body.message || 'Request failed', status,
errors: body.errors || [] }`; every thrown error is caught and mapped to
a status-500 envelope. -/
def request (timeout : Nat) (beh : ServerBehavior) : ApiResponse :=
  match beh with
  | .unreachable errMsg => catchEnvelope errMsg
  | .throwsNonError => ⟨none, .jstr "Unknown error occurred", 500, none⟩
  | .responds arrival status body =>
    if timeout < arrival then
      ⟨none, .jstr "Request timeout", 500, none⟩
    else
      match body with
      | .malformed errMsg => catchEnvelope errMsg
      | .wellFormed v =>
        if 200 ≤ status ∧ status ≤ 299 then
          match v.getProp "data" with
          | .error tyErr => catchEnvelope tyErr
          | .ok d =>
            match v.getProp "message" with
            | .error tyErr => catchEnvelope tyErr
            | .ok m => ⟨some (jsOr d v), jsOr m (.jstr "Success"), status, none⟩
        else
          match v.getProp "message" with
          | .error tyErr => catchEnvelope tyErr
          | .ok m =>
            match v.getProp "errors" with
            | .error tyErr => catchEnvelope tyErr
            | .ok e => ⟨none, jsOr m (.jstr "Request failed"), status, some (jsOr e (.jarr []))⟩

end ApiClient

/-- The success payload exactly as the specification words it:
`body.data ?? body`, the nullish-coalescing fallback, which keeps a
present `data` field even when it is falsy (`0`, `false`, `""`) and only
falls back to the whole body when `data` is absent or `null`. -/
def specNullishData (body : JVal) : JVal :=
  match body.getProp "data" with
  | .ok (some .jnull) => body
  | .ok (some v) => v
  | _ => body

/-! ## Resource Services over the envelope

Every data-unwrapping service method is the same pattern applied to the
envelope the transport call returned:
`if (response.data) return response.data; throw new Error(response.message || default)`.
Note the `if (response.data)` is a JavaScript truthiness test, so an
absent `data` field (and also a falsy one) takes the throw branch.
Thrown errors carry the message value. -/

/-- The shared unwrap pattern of the service methods. -/
def unwrapData (resp : ApiResponse) (fallback : String) : Except JVal JVal :=
  match resp.data with
  | some d =>
    if d.truthy then .ok d
    else .error (jsOrV resp.message (.jstr fallback))
  | none => .error (jsOrV resp.message (.jstr fallback))

namespace CartService

/-- `CartService.getCart` applied to the envelope of its transport call. -/
def getCart (resp : ApiResponse) : Except JVal JVal :=
  unwrapData resp "Failed to fetch cart"

end CartService

namespace UserService

/-- `UserService.getWishlist` applied to the envelope of its transport call. -/
def getWishlist (resp : ApiResponse) : Except JVal JVal :=
  unwrapData resp "Failed to fetch wishlist"

/-- `UserService.getProfile` applied to the envelope of its transport call. -/
def getProfile (resp : ApiResponse) : Except JVal JVal :=
  unwrapData resp "Failed to fetch profile"

end UserService

/-- `item.productId === productId` for one wishlist entry: the property
read throws on a `null` entry, and strict equality with a string holds
only for an equal string. -/
def entryMatches (entry : JVal) (productId : String) : Except String Bool :=
  match entry.getProp "productId" with
  | .error e => .error e
  | .ok (some (.jstr s)) => .ok (s = productId)
  | .ok _ => .ok false

/-- `Array.prototype.some` over wishlist entries: stops at the first
match, and aborts with the thrown error if the callback throws first. -/
def someMatches : List JVal → String → Except String Bool
  | [], _ => .ok false
  | e :: rest, pid =>
    match entryMatches e pid with
    | .error err => .error err
    | .ok true => .ok true
    | .ok false => someMatches rest pid

/-- `wishlist.items.some(item => item.productId === productId)`: reading
`.items` can throw (on a `null` wishlist value), and calling `.some` on
anything that is not an array throws. -/
def itemsSome (w : JVal) (pid : String) : Except String Bool :=
  match w.getProp "items" with
  | .error e => .error e
  | .ok (some (.jarr items)) => someMatches items pid
  | .ok _ => .error ("items.some" ++ " is not a function")

namespace UserService

/-- `UserService.isProductInWishlist`: the whole body is wrapped in
`try { ... } catch { return false; }`, so a failing `getWishlist` call
(or a throwing `.some`) resolves to `false` instead of rejecting. -/
def isProductInWishlist (pid : String) (resp : ApiResponse) : Except JVal Bool :=
  .ok (match UserService.getWishlist resp with
       | .error _ => false
       | .ok w =>
         match itemsSome w pid with
         | .error _ => false
         | .ok b => b)

end UserService

/-! ## Typed data model of the aggregate state container

The container consumes the typed values the services deliver, so its
logic is modelled over structures mirroring the TypeScript interfaces.
String-literal union types of the source are represented as `String`. -/

/-- `Product` of `product.service.ts`. -/
structure Product where
  id : String
  name : String
  description : String
  price : ℚ
  originalPrice : Option ℚ
  category : String
  subcategory : Option String
  brand : String
  images : List String
  sizes : List String
  colors : List String
  inStock : Bool
  stock : Option ℚ
  rating : ℚ
  reviews : ℚ
  createdAt : Option String
  updatedAt : Option String

/-- `CartItem` of `cart.service.ts`. -/
structure CartItem where
  id : String
  productId : String
  product : Product
  quantity : ℚ
  size : String
  color : String
  price : ℚ
  addedAt : String

/-- `Cart` of `cart.service.ts`: line items plus the server-computed
totals mirrored locally. -/
structure Cart where
  id : String
  userId : String
  items : List CartItem
  subtotal : ℚ
  shipping : ℚ
  tax : ℚ
  total : ℚ
  createdAt : String
  updatedAt : String

/-- The discount kind of a `PromoCode` in `ShopContext.updated.tsx`. -/
inductive PromoType where
  | percentage
  | fixed
  deriving DecidableEq

/-- `PromoCode` of `ShopContext.updated.tsx`. -/
structure PromoCode where
  code : String
  discount : ℚ
  type : PromoType

/-- The hard-coded local promo list of `ShopContext.updated.tsx`. -/
def promoCodes : List PromoCode :=
  [ ⟨"WELCOME10", 10, .percentage⟩
  , ⟨"SAVE20", 20, .percentage⟩
  , ⟨"FLAT50", 50, .fixed⟩ ]

/-- `WishlistItem` of `user.service.ts`. -/
structure WishlistItem where
  id : String
  productId : String
  product : Product
  addedAt : String

/-- `Wishlist` of `user.service.ts`. -/
structure Wishlist where
  id : String
  userId : String
  items : List WishlistItem
  createdAt : String
  updatedAt : String

/-- `Notification` of `user.service.ts`; the optional `data` payload is
an arbitrary object, kept as a JavaScript value. -/
structure Notification where
  id : String
  type : String
  title : String
  message : String
  read : Bool
  createdAt : String
  data : Option JVal

/-- `Address` of `address.service.ts`. -/
structure Address where
  id : String
  fullName : String
  addressLine1 : String
  addressLine2 : Option String
  city : String
  state : String
  postalCode : String
  country : String
  phoneNumber : String
  isDefault : Bool
  createdAt : String
  updatedAt : String

/-- `UserProfile` of `user.service.ts`. -/
structure UserProfile where
  id : String
  email : String
  firstName : String
  lastName : String
  phoneNumber : Option String
  dateOfBirth : Option String
  gender : Option String
  avatar : Option String
  emailVerified : Bool
  createdAt : String
  updatedAt : String

/-- The locally-held `User` of `ShopContext.updated.tsx`: profile fields
combined with the separately fetched addresses collection. -/
structure User where
  id : String
  name : String
  email : String
  phone : Option String
  addresses : List Address

/-- The embedded product reference of order and return items. -/
structure ProductRef where
  id : String
  name : String
  image : String
  brand : String

/-- `OrderItem` of `order.service.ts`. -/
structure OrderItem where
  id : String
  productId : String
  product : ProductRef
  quantity : ℚ
  size : String
  color : String
  price : ℚ
  totalPrice : ℚ

/-- The `Address` interface local to `order.service.ts` (it has no
timestamps, unlike the one of `address.service.ts`). -/
structure OrderAddress where
  id : String
  fullName : String
  addressLine1 : String
  addressLine2 : Option String
  city : String
  state : String
  postalCode : String
  country : String
  phoneNumber : String
  isDefault : Bool

/-- `OrderTimeline` of `order.service.ts`. -/
structure OrderTimeline where
  id : String
  status : String
  date : String
  description : String
  completed : Bool

/-- `Order` of `order.service.ts`. -/
structure Order where
  id : String
  userId : String
  orderNumber : String
  items : List OrderItem
  subtotal : ℚ
  shipping : ℚ
  tax : ℚ
  total : ℚ
  status : String
  paymentStatus : String
  paymentMethod : String
  shippingAddress : OrderAddress
  billingAddress : Option OrderAddress
  trackingNumber : Option String
  estimatedDelivery : Option String
  actualDelivery : Option String
  notes : Option String
  createdAt : String
  updatedAt : String
  timeline : Option (List OrderTimeline)

/-- `OrderListResponse` of `order.service.ts`. -/
structure OrderListResponse where
  orders : List Order
  total : ℚ
  page : ℚ
  limit : ℚ
  totalPages : ℚ

/-- `ReturnItem` of `return.service.ts`. -/
structure ReturnItem where
  id : String
  orderItemId : String
  productId : String
  product : ProductRef
  quantity : ℚ
  reason : String
  condition : String
  refundAmount : ℚ

/-- `Return` of `return.service.ts`. -/
structure Return where
  id : String
  orderId : String
  orderNumber : String
  userId : String
  items : List ReturnItem
  status : String
  refundAmount : ℚ
  refundMethod : String
  refundStatus : String
  returnReason : String
  returnReasonDetails : Option String
  images : Option (List String)
  notes : Option String
  adminNotes : Option String
  createdAt : String
  updatedAt : String
  approvedAt : Option String
  completedAt : Option String

/-- `ReturnListResponse` of `return.service.ts`. -/
structure ReturnListResponse where
  returns : List Return
  total : ℚ
  page : ℚ
  limit : ℚ
  totalPages : ℚ

/-- The paged result of `UserService.getNotifications`. -/
structure NotificationListResponse where
  notifications : List Notification
  total : ℚ
  unreadCount : ℚ
  page : ℚ
  limit : ℚ
  totalPages : ℚ

/-- The state held by `ShopProvider` in `ShopContext.updated.tsx`. -/
structure ShopState where
  cart : Option Cart
  wishlist : Option Wishlist
  user : Option User
  orders : List Order
  returns : List Return
  notifications : List Notification
  appliedPromo : Option PromoCode
  loading : Bool
  error : Option String

/-- A user-facing toast notice. -/
inductive Notice where
  | success (msg : String)
  | failure (msg : String)
  deriving DecidableEq

/-- The observable effect of one container method invocation: the final
store, the toasts shown, the service calls dispatched over the network
(in order), and the value the returned promise settles with. -/
structure MutationResult (α : Type) where
  state : ShopState
  notices : List Notice
  calls : List String
  result : Except String α

/-! ## Load functions of `ShopContext.updated.tsx`

At this layer each service call is represented by its outcome, an
`Except String α` whose error is the thrown `Error.message` (every
service throws `new Error(...)`).  Each load function catches its own
failure (logging only), so it never rejects. -/

/-- `loadCart`: on success store the cart; a failure is swallowed. -/
def loadCart (res : Except String Cart) (store : ShopState) : ShopState :=
  match res with
  | .ok c => { store with cart := some c }
  | .error _ => store

/-- `loadWishlist`: on success store the wishlist; a failure is swallowed. -/
def loadWishlist (res : Except String Wishlist) (store : ShopState) : ShopState :=
  match res with
  | .ok w => { store with wishlist := some w }
  | .error _ => store

/-- `loadOrders`: on success store `ordersData.orders`; a failure is swallowed. -/
def loadOrders (res : Except String OrderListResponse) (store : ShopState) : ShopState :=
  match res with
  | .ok r => { store with orders := r.orders }
  | .error _ => store

/-- `loadReturns`: on success store `returnsData.returns`; a failure is swallowed. -/
def loadReturns (res : Except String ReturnListResponse) (store : ShopState) : ShopState :=
  match res with
  | .ok r => { store with returns := r.returns }
  | .error _ => store

/-- `loadNotifications`: on success store
`notificationsData.notifications`; a failure is swallowed. -/
def loadNotifications (res : Except String NotificationListResponse) (store : ShopState) : ShopState :=
  match res with
  | .ok r => { store with notifications := r.notifications }
  | .error _ => store

/-- `loadAddresses`: on success, `if (user) setUser({ ...user, addresses })`.
The `user` read here is the value captured by the render closure in
which the function was created (`capturedUser`), not the current store
value — React state reads in a closure see the snapshot of their render.
When the captured user is `null` the fetched addresses are discarded. -/
def loadAddresses (capturedUser : Option User) (res : Except String (List Address))
    (store : ShopState) : ShopState :=
  match res with
  | .error _ => store
  | .ok addrs =>
    match capturedUser with
    | some u => { store with user := some { u with addresses := addrs } }
    | none => store

/-! ## Derivations -/

/-- `getTotalPrice` of `ShopContext.updated.tsx`: the cart's
server-computed total with the applied promo adjustment; `0` with no
cart. -/
def getTotalPrice (cart : Option Cart) (appliedPromo : Option PromoCode) : ℚ :=
  match cart with
  | none => 0
  | some c =>
    match appliedPromo with
    | none => c.total
    | some p =>
      match p.type with
      | .percentage => c.total * (1 - p.discount / 100)
      | .fixed => max 0 (c.total - p.discount)

/-- `getTotalItems` of `ShopContext.updated.tsx`: the sum of the line
item quantities; `0` with no cart. -/
def getTotalItems (cart : Option Cart) : ℚ :=
  match cart with
  | none => 0
  | some c => c.items.foldl (fun total item => total + item.quantity) 0

/-! ## The sign-in synchronization effect -/

/-- The user object `syncUser` builds from a fetched profile:
name is `` `${firstName} ${lastName}`.trim() ``, and the addresses start
empty (the source comment reads: Will be loaded separately). -/
def mkUserFromProfile (p : UserProfile) : User :=
  { id := p.id
  , name := (p.firstName ++ " " ++ p.lastName).trim
  , email := p.email
  , phone := p.phoneNumber
  , addresses := [] }

/-- The six identity-scoped loads fanned out by `syncUser`. -/
inductive LoadKind where
  | cart
  | wishlist
  | orders
  | returns
  | notifications
  | addresses
  deriving DecidableEq

/-- All six loads, in the order they appear in the `Promise.all`. -/
def allLoadKinds : List LoadKind :=
  [.cart, .wishlist, .orders, .returns, .notifications, .addresses]

/-- The outcomes of the six fan-out service calls. -/
structure SyncLoads where
  cartRes : Except String Cart
  wishlistRes : Except String Wishlist
  ordersRes : Except String OrderListResponse
  returnsRes : Except String ReturnListResponse
  notificationsRes : Except String NotificationListResponse
  addressesRes : Except String (List Address)

/-- The signed-in branch of the `syncUser` effect: set loading, fetch
the profile, and only if that succeeds build the local user and fan out
the six loads (whose individual failures the load functions swallow);
a profile failure is caught before the fan-out, so no load is issued.
The six loads write disjoint store fields, so applying them in list
order captures every completion order of the `Promise.all`.
`captured` is the render snapshot the effect closure closed over.
Returns the final store, the loads that were issued, and the toasts. -/
def syncUserSignedIn (profileRes : Except String UserProfile) (loads : SyncLoads)
    (captured store : ShopState) : ShopState × List LoadKind × List Notice :=
  let st0 := { store with loading := true, error := none }
  match profileRes with
  | .error e => ({ st0 with error := some e, loading := false }, [], [.failure e])
  | .ok p =>
    let st1 := { st0 with user := some (mkUserFromProfile p) }
    let st2 := loadCart loads.cartRes st1
    let st3 := loadWishlist loads.wishlistRes st2
    let st4 := loadOrders loads.ordersRes st3
    let st5 := loadReturns loads.returnsRes st4
    let st6 := loadNotifications loads.notificationsRes st5
    let st7 := loadAddresses captured.user loads.addressesRes st6
    ({ st7 with loading := false }, allLoadKinds, [])

/-- The signed-out branch of the `syncUser` effect: synchronously clear
every identity-scoped field; no network call. -/
def syncUserSignedOut (store : ShopState) : ShopState :=
  { store with
      user := none
    , cart := none
    , wishlist := none
    , orders := []
    , returns := []
    , notifications := []
    , appliedPromo := none }

/-! ## Mutation methods of `ShopContext.updated.tsx`

Each method: set the shared busy flag, run its service call(s)
(represented by their outcomes), on success refresh the affected
collection and toast, on failure toast and rethrow (with the stated
exceptions); the busy flag is cleared in the `finally`.  Thrown service
errors are always `Error` instances, so the caught message is the
service message. -/

/-- `addToCart(productId, size, color, quantity)`. -/
def addToCart (productId size color : String) (quantity : ℚ)
    (svc : Except String Cart) (cartLoad : Except String Cart)
    (store : ShopState) : MutationResult Unit :=
  let st0 := { store with loading := true }
  match svc with
  | .error e =>
    ⟨{ st0 with loading := false }, [.failure e], ["cartService.addToCart"], .error e⟩
  | .ok _ =>
    let st1 := loadCart cartLoad st0
    ⟨{ st1 with loading := false }, [.success "Item added to cart"],
      ["cartService.addToCart", "cartService.getCart"], .ok ()⟩

/-- `removeFromCart(itemId)`. -/
def removeFromCart (itemId : String) (svc : Except String Cart)
    (cartLoad : Except String Cart) (store : ShopState) : MutationResult Unit :=
  let st0 := { store with loading := true }
  match svc with
  | .error e =>
    ⟨{ st0 with loading := false }, [.failure e], ["cartService.removeFromCart"], .error e⟩
  | .ok _ =>
    let st1 := loadCart cartLoad st0
    ⟨{ st1 with loading := false }, [.success "Item removed from cart"],
      ["cartService.removeFromCart", "cartService.getCart"], .ok ()⟩

/-- `updateCartQuantity(itemId, quantity)`: note the success path has no
toast call in the source. -/
def updateCartQuantity (itemId : String) (quantity : ℚ)
    (svc : Except String Cart) (cartLoad : Except String Cart)
    (store : ShopState) : MutationResult Unit :=
  let st0 := { store with loading := true }
  match svc with
  | .error e =>
    ⟨{ st0 with loading := false }, [.failure e], ["cartService.updateCartItem"], .error e⟩
  | .ok _ =>
    let st1 := loadCart cartLoad st0
    ⟨{ st1 with loading := false }, [],
      ["cartService.updateCartItem", "cartService.getCart"], .ok ()⟩

/-- `clearCart()`. -/
def clearCart (svc : Except String Unit) (store : ShopState) : MutationResult Unit :=
  let st0 := { store with loading := true }
  match svc with
  | .error e =>
    ⟨{ st0 with loading := false }, [.failure e], ["cartService.clearCart"], .error e⟩
  | .ok _ =>
    ⟨{ st0 with cart := none, loading := false }, [.success "Cart cleared"],
      ["cartService.clearCart"], .ok ()⟩

/-- `toggleWishlist(productId)`: `isIn` is the answer of
`userService.isProductInWishlist` (which never rejects), `mutRes` the
outcome of the remove or add call it selects. -/
def toggleWishlist (productId : String) (isIn : Bool)
    (mutRes : Except String Wishlist) (wlLoad : Except String Wishlist)
    (store : ShopState) : MutationResult Unit :=
  let st0 := { store with loading := true }
  let mutCall := if isIn then "userService.removeFromWishlist" else "userService.addToWishlist"
  match mutRes with
  | .error e =>
    ⟨{ st0 with loading := false }, [.failure e],
      ["userService.isProductInWishlist", mutCall], .error e⟩
  | .ok _ =>
    let st1 := loadWishlist wlLoad st0
    ⟨{ st1 with loading := false },
      [.success (if isIn then "Item removed from wishlist" else "Item added to wishlist")],
      ["userService.isProductInWishlist", mutCall, "userService.getWishlist"], .ok ()⟩

/-- The spread `{ ...prev, ...updatedProfile }` merging a full fetched
profile into the local `User`: the colliding typed keys are `id` and
`email`; profile-only keys land outside the `User` interface and are not
tracked by the model. -/
def mergeProfile (u : User) (p : UserProfile) : User :=
  { u with id := p.id, email := p.email }

/-- `updateUser(data)`: the `setUser` here is a functional update, so it
reads the current store value. -/
def updateUser (svc : Except String UserProfile) (store : ShopState) : MutationResult Unit :=
  let st0 := { store with loading := true }
  match svc with
  | .error e =>
    ⟨{ st0 with loading := false }, [.failure e], ["userService.updateProfile"], .error e⟩
  | .ok p =>
    ⟨{ st0 with user := store.user.map (fun u => mergeProfile u p), loading := false },
      [.success "Profile updated successfully"], ["userService.updateProfile"], .ok ()⟩

/-- `addAddress(address)`: refreshes via `loadAddresses`, whose `user`
read is the render-captured one. -/
def addAddress (capturedUser : Option User) (svc : Except String Address)
    (addrLoad : Except String (List Address)) (store : ShopState) : MutationResult Unit :=
  let st0 := { store with loading := true }
  match svc with
  | .error e =>
    ⟨{ st0 with loading := false }, [.failure e], ["addressService.createAddress"], .error e⟩
  | .ok _ =>
    let st1 := loadAddresses capturedUser addrLoad st0
    ⟨{ st1 with loading := false }, [.success "Address added successfully"],
      ["addressService.createAddress", "addressService.getAddresses"], .ok ()⟩

/-- `updateAddress(id, address)`. -/
def updateAddress (id : String) (capturedUser : Option User) (svc : Except String Address)
    (addrLoad : Except String (List Address)) (store : ShopState) : MutationResult Unit :=
  let st0 := { store with loading := true }
  match svc with
  | .error e =>
    ⟨{ st0 with loading := false }, [.failure e], ["addressService.updateAddress"], .error e⟩
  | .ok _ =>
    let st1 := loadAddresses capturedUser addrLoad st0
    ⟨{ st1 with loading := false }, [.success "Address updated successfully"],
      ["addressService.updateAddress", "addressService.getAddresses"], .ok ()⟩

/-- `deleteAddress(id)`. -/
def deleteAddress (id : String) (capturedUser : Option User) (svc : Except String Unit)
    (addrLoad : Except String (List Address)) (store : ShopState) : MutationResult Unit :=
  let st0 := { store with loading := true }
  match svc with
  | .error e =>
    ⟨{ st0 with loading := false }, [.failure e], ["addressService.deleteAddress"], .error e⟩
  | .ok _ =>
    let st1 := loadAddresses capturedUser addrLoad st0
    ⟨{ st1 with loading := false }, [.success "Address deleted successfully"],
      ["addressService.deleteAddress", "addressService.getAddresses"], .ok ()⟩

/-- `setDefaultAddress(id)`. -/
def setDefaultAddress (id : String) (capturedUser : Option User)
    (svc : Except String (List Address)) (addrLoad : Except String (List Address))
    (store : ShopState) : MutationResult Unit :=
  let st0 := { store with loading := true }
  match svc with
  | .error e =>
    ⟨{ st0 with loading := false }, [.failure e], ["addressService.setDefaultAddress"], .error e⟩
  | .ok _ =>
    let st1 := loadAddresses capturedUser addrLoad st0
    ⟨{ st1 with loading := false }, [.success "Default address updated"],
      ["addressService.setDefaultAddress", "addressService.getAddresses"], .ok ()⟩

/-- One entry of the order request body built from a cart line item. -/
structure OrderItemRequest where
  productId : String
  quantity : ℚ
  size : String
  color : String

/-- `CreateOrderRequest` of `order.service.ts` (the optional
`billingAddressId` and `notes` are never set by the container). -/
structure CreateOrderRequest where
  items : List OrderItemRequest
  shippingAddressId : String
  paymentMethod : String

/-- `createOrder(paymentMethod, addressId)`: the `cart` read is the
render-captured one; with no cart it throws before the service call,
otherwise it builds the order request from the cart items, calls the
service (whose outcome may depend on the request), prepends the created
order (functional update on the store), clears cart and promo. -/
def createOrder (paymentMethod addressId : String)
    (svc : CreateOrderRequest → Except String Order)
    (captured store : ShopState) : MutationResult Order :=
  let st0 := { store with loading := true }
  match captured.cart with
  | none =>
    ⟨{ st0 with loading := false }, [.failure "Cart is empty"], [], .error "Cart is empty"⟩
  | some c =>
    let orderData : CreateOrderRequest :=
      { items := c.items.map (fun item => ⟨item.productId, item.quantity, item.size, item.color⟩)
      , shippingAddressId := addressId
      , paymentMethod := paymentMethod }
    match svc orderData with
    | .ok order =>
      ⟨{ st0 with
            orders := order :: st0.orders
          , cart := none
          , appliedPromo := none
          , loading := false },
        [.success "Order placed successfully!"], ["orderService.createOrder"], .ok order⟩
    | .error e =>
      ⟨{ st0 with loading := false }, [.failure e], ["orderService.createOrder"], .error e⟩

/-- `createReturnRequest(orderId, items, reason)`; the untyped `items`
array is carried as JavaScript values. -/
def createReturnRequest (orderId : String) (items : List JVal) (reason : String)
    (svc : Except String Return) (retLoad : Except String ReturnListResponse)
    (store : ShopState) : MutationResult Unit :=
  let st0 := { store with loading := true }
  match svc with
  | .error e =>
    ⟨{ st0 with loading := false }, [.failure e], ["returnService.createReturn"], .error e⟩
  | .ok _ =>
    let st1 := loadReturns retLoad st0
    ⟨{ st1 with loading := false }, [.success "Return request submitted successfully"],
      ["returnService.createReturn", "returnService.getReturns"], .ok ()⟩

/-- `markNotificationRead(id)`: no busy flag, no reload — on success the
single matching item is patched locally via a functional update; no
success toast in the source. -/
def markNotificationRead (id : String) (svc : Except String Unit)
    (store : ShopState) : MutationResult Unit :=
  match svc with
  | .ok _ =>
    ⟨{ store with notifications :=
        store.notifications.map (fun notif =>
          if notif.id = id then { notif with read := true } else notif) },
      [], ["userService.markNotificationRead"], .ok ()⟩
  | .error e =>
    ⟨store, [.failure e], ["userService.markNotificationRead"], .error e⟩

/-- `String.prototype.toLowerCase`, written over the character list so
that it evaluates by kernel reduction (the promo codes are ASCII). -/
def toLowerCase (s : String) : String := ⟨s.data.map Char.toLower⟩

/-- `promoCodes.find(p => p.code.toLowerCase() === code.toLowerCase())`. -/
def promoFind (code : String) : Option PromoCode :=
  promoCodes.find? (fun p => toLowerCase p.code == toLowerCase code)

/-- `applyPromoCode(code)`: after a successful server apply and a cart
reload, the promo actually stored is looked up in the hard-coded local
list; an unknown code resolves `false` with no toast, and a failing
server call is caught, toasts, and resolves `false` (it does not
reject). -/
def applyPromoCode (code : String) (svc : Except String Cart)
    (cartLoad : Except String Cart) (store : ShopState) : MutationResult Bool :=
  let st0 := { store with loading := true }
  match svc with
  | .error e =>
    ⟨{ st0 with loading := false }, [.failure e], ["cartService.applyPromoCode"], .ok false⟩
  | .ok _ =>
    let st1 := loadCart cartLoad st0
    match promoFind code with
    | some promo =>
      ⟨{ st1 with appliedPromo := some promo, loading := false },
        [.success "Promo code applied successfully"],
        ["cartService.applyPromoCode", "cartService.getCart"], .ok true⟩
    | none =>
      ⟨{ st1 with loading := false }, [],
        ["cartService.applyPromoCode", "cartService.getCart"], .ok false⟩

/-- `removePromoCode()`. -/
def removePromoCode (svc : Except String Cart) (cartLoad : Except String Cart)
    (store : ShopState) : MutationResult Unit :=
  let st0 := { store with loading := true }
  match svc with
  | .error e =>
    ⟨{ st0 with loading := false }, [.failure e], ["cartService.removePromoCode"], .error e⟩
  | .ok _ =>
    let st1 := loadCart cartLoad st0
    ⟨{ st1 with appliedPromo := none, loading := false }, [.success "Promo code removed"],
      ["cartService.removePromoCode", "cartService.getCart"], .ok ()⟩

/-! ## Concrete sample values for instantiations -/

/-- A sample catalog product. -/
def sampleProduct : Product :=
  ⟨"p1", "Tee", "A cotton tee", 15, none, "tops", none, "acme",
   [], ["M"], ["Red"], true, none, 4, 10, none, none⟩

/-- A sample cart line item: product `p1`, size `M`, color `Red`, quantity 2. -/
def sampleItem : CartItem :=
  ⟨"ci1", "p1", sampleProduct, 2, "M", "Red", 15, "2024-01-01"⟩

/-- A sample cart whose server-computed total is 30. -/
def cart30 : Cart :=
  ⟨"c1", "u1", [sampleItem], 30, 0, 0, 30, "2024-01-01", "2024-01-01"⟩

/-- The empty, signed-out store. -/
def emptyState : ShopState :=
  ⟨none, none, none, [], [], [], none, false, none⟩

/-- A 2xx body whose `data` field is present but falsy (`0`). -/
def body0 : JVal := .jobj [("data", .jnum 0), ("message", .jstr "ok")]

/-- A well-formed success body with a truthy `data` field. -/
def wvBody : JVal := .jobj [("data", .jstr "payload"), ("message", .jstr "ok")]

/-- A failing transport envelope: no `data`, a server message, status 500. -/
def failEnv : ApiResponse := ⟨none, .jstr "Server exploded", 500, some (.jarr [])⟩

/-- Fan-out outcomes in which every load fails. -/
def failLoads : SyncLoads :=
  ⟨.error "cart down", .error "wishlist down", .error "orders down",
   .error "returns down", .error "notifications down", .error "addresses down"⟩

/-- A sample address returned by the address fetch. -/
def addr1 : Address :=
  ⟨"a1", "Sam Doe", "1 Main St", none, "Springfield", "IL", "62701", "US",
   "555-0100", true, "2024-01-01", "2024-01-01"⟩

/-- A sample fetched profile. -/
def profile1 : UserProfile :=
  ⟨"u1", "sam@example.com", "Sam", "Doe", some "555-0100", none, none, none,
   true, "2024-01-01", "2024-01-01"⟩

/-- Fan-out outcomes of a sign-in in which the address fetch succeeds
with one address. -/
def signInLoads : SyncLoads :=
  ⟨.error "cart down", .error "wishlist down", .error "orders down",
   .error "returns down", .error "notifications down", .ok [addr1]⟩

/-- A sample unread notification with id `n1`. -/
def notifA : Notification := ⟨"n1", "order", "t1", "m1", false, "2024-01-01", none⟩

/-- A sample unread notification with id `n2`. -/
def notifB : Notification := ⟨"n2", "promo", "t2", "m2", false, "2024-01-02", none⟩

/-- A store holding the two sample notifications. -/
def notifState : ShopState :=
  ⟨none, none, none, [], [], [notifA, notifB], none, false, none⟩

/-! ## Theorems -/

/-- C1: for a present cart with server-computed total `T`,
`getTotalPrice` returns `T` with no promo applied; with a percentage
promo of discount `d` it returns `T * (1 - d / 100)`; with a fixed promo
of amount `a` it returns `max 0 (T - a)`, which is never negative; in
particular the fixed promo `FLAT50` (amount 50) on a cart with total 30
yields 0, not -20. -/
theorem C1_getTotalPrice_promo_application :
    (∀ c : Cart, getTotalPrice (some c) none = c.total)
    ∧ (∀ (c : Cart) (code : String) (d : ℚ),
        getTotalPrice (some c) (some ⟨code, d, .percentage⟩) = c.total * (1 - d / 100))
    ∧ (∀ (c : Cart) (code : String) (a : ℚ),
        getTotalPrice (some c) (some ⟨code, a, .fixed⟩) = max 0 (c.total - a))
    ∧ (∀ (c : Cart) (code : String) (a : ℚ),
        0 ≤ getTotalPrice (some c) (some ⟨code, a, .fixed⟩))
    ∧ getTotalPrice (some cart30) (some ⟨"FLAT50", 50, .fixed⟩) = 0 := by
  refine ⟨fun c => rfl, fun c code d => rfl, fun c code a => rfl,
    fun c code a => le_max_left 0 _, ?_⟩
  show max 0 (cart30.total - 50) = 0
  norm_num [cart30]

/-- C10: with no cart present, `getTotalPrice` returns 0 regardless of
any applied promo, and `getTotalItems` returns 0. -/
theorem C10_absent_cart_totals (promo : Option PromoCode) :
    getTotalPrice none promo = 0 ∧ getTotalItems none = 0 :=
  ⟨rfl, rfl⟩

/-- C2 counterexample: on a 200 response with body
`\x7b data: 0, message: "ok" \x7d`, the code returns the whole body as
payload (`body.data || body` with a falsy fallback), while the claimed
`body.data ?? body` would return `0`. -/
theorem C2_counterexample :
    (ApiClient.request 10000 (.responds 5 200 (.wellFormed body0))).data
      ≠ some (specNullishData body0) := by
  intro h
  have h1 : (ApiClient.request 10000 (.responds 5 200 (.wellFormed body0))).data
      = some body0 := rfl
  have h2 : specNullishData body0 = .jnum 0 := rfl
  rw [h1, h2] at h
  injection h with h3
  exact JVal.noConfusion h3

/-- C2 (amended): for a response arriving within the timeout with a
non-null well-formed body, a 2xx status yields the envelope
`\x7b data: body.data || body, message: body.message || "Success", status \x7d`
(the fallback is the JavaScript falsy `||`, not the nullish `??`: a
present but falsy `data`, `message` or `errors` field is replaced), and
a non-2xx status yields
`\x7b message: body.message || "Request failed", status,
errors: body.errors || [] \x7d` with no `data` field. -/
theorem C2_request_normalization (t arrival status : Nat) (v : JVal)
    (harr : arrival ≤ t) (hnn : v ≠ JVal.jnull) :
    (200 ≤ status ∧ status ≤ 299 →
      ApiClient.request t (.responds arrival status (.wellFormed v)) =
        ⟨some (jsOr (v.propD "data") v), jsOr (v.propD "message") (.jstr "Success"),
          status, none⟩)
    ∧ (¬(200 ≤ status ∧ status ≤ 299) →
      ApiClient.request t (.responds arrival status (.wellFormed v)) =
        ⟨none, jsOr (v.propD "message") (.jstr "Request failed"), status,
          some (jsOr (v.propD "errors") (.jarr []))⟩) := by
  have hlt : ¬ t < arrival := Nat.not_lt.mpr harr
  constructor
  · intro hs
    cases v with
    | jnull => exact absurd rfl hnn
    | jbool b => simp [ApiClient.request, JVal.getProp, JVal.propD, hlt, hs]
    | jnum q => simp [ApiClient.request, JVal.getProp, JVal.propD, hlt, hs]
    | jstr s => simp [ApiClient.request, JVal.getProp, JVal.propD, hlt, hs]
    | jarr elems => simp [ApiClient.request, JVal.getProp, JVal.propD, hlt, hs]
    | jobj fields => simp [ApiClient.request, JVal.getProp, JVal.propD, hlt, hs]
  · intro hs
    cases v with
    | jnull => exact absurd rfl hnn
    | jbool b => simp [ApiClient.request, JVal.getProp, JVal.propD, hlt, hs]
    | jnum q => simp [ApiClient.request, JVal.getProp, JVal.propD, hlt, hs]
    | jstr s => simp [ApiClient.request, JVal.getProp, JVal.propD, hlt, hs]
    | jarr elems => simp [ApiClient.request, JVal.getProp, JVal.propD, hlt, hs]
    | jobj fields => simp [ApiClient.request, JVal.getProp, JVal.propD, hlt, hs]

/-- C2 witness: the normalization theorem applied to a concrete 200
response. -/
theorem C2_request_normalization_witness :
    ApiClient.request 10000 (.responds 5 200 (.wellFormed wvBody)) =
      ⟨some (.jstr "payload"), .jstr "ok", 200, none⟩ := by
  have h := (C2_request_normalization 10000 5 200 wvBody (by decide)
      (fun hh => JVal.noConfusion hh)).1 ⟨by decide, by decide⟩
  rw [h]
  rfl

/-- C3: a response arriving only after the configured timeout yields the
synthetic timeout envelope (no `data`, message `Request timeout`, status
500); an unreachable server, a malformed JSON body, and a non-`Error`
throw each yield an envelope with no `data` and status 500 — the client
resolves in every failure mode. -/
theorem C3_transport_failure_envelopes (t : Nat) :
    (∀ (arrival status : Nat) (body : BodyText), t < arrival →
      ApiClient.request t (.responds arrival status body) =
        ⟨none, .jstr "Request timeout", 500, none⟩)
    ∧ (∀ errMsg : String, (ApiClient.request t (.unreachable errMsg)).data = none
        ∧ (ApiClient.request t (.unreachable errMsg)).status = 500)
    ∧ (∀ (arrival status : Nat) (errMsg : String), arrival ≤ t →
        (ApiClient.request t (.responds arrival status (.malformed errMsg))).data = none
        ∧ (ApiClient.request t (.responds arrival status (.malformed errMsg))).status = 500)
    ∧ (ApiClient.request t .throwsNonError).data = none
    ∧ (ApiClient.request t .throwsNonError).status = 500 := by
  refine ⟨?_, fun errMsg => ⟨rfl, rfl⟩, ?_, rfl, rfl⟩
  · intro arrival status body h
    simp [ApiClient.request, h]
  · intro arrival status errMsg h
    have hlt : ¬ t < arrival := Nat.not_lt.mpr h
    exact ⟨by simp [ApiClient.request, hlt, ApiClient.catchEnvelope],
           by simp [ApiClient.request, hlt, ApiClient.catchEnvelope]⟩

/-- C3 witness: a response arriving at 20000 ms against a 10000 ms
timeout yields the timeout envelope. -/
theorem C3_transport_failure_envelopes_witness :
    ApiClient.request 10000 (.responds 20000 200 (.wellFormed (.jobj []))) =
      ⟨none, .jstr "Request timeout", 500, none⟩ :=
  (C3_transport_failure_envelopes 10000).1 20000 200 _ (by decide)

/-- C4 counterexample: a transport failure (envelope without `data`)
after which `UserService.isProductInWishlist` resolves `false` instead
of rejecting — a Resource Service method that swallows a failing
transport call. -/
theorem C4_counterexample :
    failEnv.data = none ∧ UserService.isProductInWishlist "p1" failEnv = .ok false :=
  ⟨rfl, rfl⟩

/-- C4 (amended): on an envelope without `data`, the data-unwrapping
service methods (`getCart`, `getWishlist`, `getProfile`) throw an error
carrying the envelope message with a fixed per-operation fallback, but
`isProductInWishlist` catches the failure of its underlying
`getWishlist` call and resolves `false`. -/
theorem C4_service_throw_contract (m : JVal) (st : Nat) (errs : Option JVal)
    (pid : String) :
    CartService.getCart ⟨none, m, st, errs⟩ =
      .error (jsOrV m (.jstr "Failed to fetch cart"))
    ∧ UserService.getWishlist ⟨none, m, st, errs⟩ =
      .error (jsOrV m (.jstr "Failed to fetch wishlist"))
    ∧ UserService.getProfile ⟨none, m, st, errs⟩ =
      .error (jsOrV m (.jstr "Failed to fetch profile"))
    ∧ UserService.isProductInWishlist pid ⟨none, m, st, errs⟩ = .ok false :=
  ⟨rfl, rfl, rfl, rfl⟩

/-- C5 counterexample: when the initial profile fetch fails, not even
the cart load is issued — the whole fan-out is skipped, because the
profile failure is caught by the `try` that encloses the `Promise.all`. -/
theorem C5_counterexample :
    LoadKind.cart ∉
      (syncUserSignedIn (.error "profile down") failLoads emptyState emptyState).2.1 := by
  have h : (syncUserSignedIn (.error "profile down") failLoads emptyState emptyState).2.1
      = [] := rfl
  rw [h]
  exact List.not_mem_nil _

/-- C5 (amended): the six loads are issued exactly when the initial
profile fetch succeeds — a profile failure prevents all of them, while
once the profile fetch succeeds all six are issued regardless of the
individual load outcomes (each load failure is swallowed). -/
theorem C5_fanout_gated_on_profile (loads : SyncLoads) (captured store : ShopState) :
    (∀ p : UserProfile,
      (syncUserSignedIn (.ok p) loads captured store).2.1 = allLoadKinds)
    ∧ (∀ e : String,
      (syncUserSignedIn (.error e) loads captured store).2.1 = []) :=
  ⟨fun p => rfl, fun e => rfl⟩

/-- C6: `createOrder` invoked while the captured cart is absent fails
with the local precondition error before any service call is dispatched,
and leaves the orders list, the cart, and the applied promo unchanged. -/
theorem C6_createOrder_empty_cart_precondition (pm aid : String)
    (svc : CreateOrderRequest → Except String Order) (captured store : ShopState) :
    (createOrder pm aid svc { captured with cart := none } store).calls = []
    ∧ (createOrder pm aid svc { captured with cart := none } store).state.orders
        = store.orders
    ∧ (createOrder pm aid svc { captured with cart := none } store).state.cart
        = store.cart
    ∧ (createOrder pm aid svc { captured with cart := none } store).state.appliedPromo
        = store.appliedPromo
    ∧ (createOrder pm aid svc { captured with cart := none } store).result
        = .error "Cart is empty"
    ∧ (createOrder pm aid svc { captured with cart := none } store).notices
        = [.failure "Cart is empty"] :=
  ⟨rfl, rfl, rfl, rfl, rfl, rfl⟩

/-- C9, evaluated at the failing input: during the sign-in fan-out the
address fetch succeeds with `[addr1]`, yet the stored user keeps an
empty `addresses` list — `loadAddresses` reads the `user` captured by
the render closure in which the effect fired, which is still `null`
during the first sign-in, so its `if (user)` guard discards the fetched
collection. -/
theorem C9_addresses_dropped_on_signin :
    ((syncUserSignedIn (.ok profile1) signInLoads emptyState emptyState).1.user).map
        User.addresses = some []
    ∧ signInLoads.addressesRes = .ok [addr1]
    ∧ ([] : List Address) ≠ [addr1] :=
  ⟨rfl, rfl, fun h => List.noConfusion h⟩

/-- C7 counterexample: a successful `updateCartQuantity` invocation
emits no notice at all — not the claimed exactly-one success notice. -/
theorem C7_counterexample :
    (updateCartQuantity "ci1" 3 (.ok cart30) (.ok cart30) emptyState).notices.length
      ≠ 1 := by
  have h : (updateCartQuantity "ci1" 3 (.ok cart30) (.ok cart30) emptyState).notices
      = [] := rfl
  rw [h]
  decide

/-- C7 (amended): every mutation method emits exactly one failure notice
on a failing invocation and never both kinds; on success, each mutation
emits exactly one success notice, except `updateCartQuantity` and
`markNotificationRead`, which emit none, and `applyPromoCode`, which
emits one exactly when the code is in the hard-coded local promo list
(and on failure toasts once but resolves `false` instead of rejecting). -/
theorem C7_mutation_notice_discipline :
    (∀ (pid sz col : String) (q : ℚ) (e : String) (l : Except String Cart) (st : ShopState),
      (addToCart pid sz col q (.error e) l st).notices = [.failure e])
    ∧ (∀ (pid sz col : String) (q : ℚ) (c : Cart) (l : Except String Cart) (st : ShopState),
      (addToCart pid sz col q (.ok c) l st).notices = [.success "Item added to cart"])
    ∧ (∀ (iid e : String) (l : Except String Cart) (st : ShopState),
      (removeFromCart iid (.error e) l st).notices = [.failure e])
    ∧ (∀ (iid : String) (c : Cart) (l : Except String Cart) (st : ShopState),
      (removeFromCart iid (.ok c) l st).notices = [.success "Item removed from cart"])
    ∧ (∀ (iid : String) (q : ℚ) (e : String) (l : Except String Cart) (st : ShopState),
      (updateCartQuantity iid q (.error e) l st).notices = [.failure e])
    ∧ (∀ (iid : String) (q : ℚ) (c : Cart) (l : Except String Cart) (st : ShopState),
      (updateCartQuantity iid q (.ok c) l st).notices = [])
    ∧ (∀ (e : String) (st : ShopState),
      (clearCart (.error e) st).notices = [.failure e])
    ∧ (∀ st : ShopState,
      (clearCart (.ok ()) st).notices = [.success "Cart cleared"])
    ∧ (∀ (pid : String) (isIn : Bool) (e : String) (l : Except String Wishlist) (st : ShopState),
      (toggleWishlist pid isIn (.error e) l st).notices = [.failure e])
    ∧ (∀ (pid : String) (isIn : Bool) (w : Wishlist) (l : Except String Wishlist) (st : ShopState),
      (toggleWishlist pid isIn (.ok w) l st).notices =
        [.success (if isIn then "Item removed from wishlist" else "Item added to wishlist")])
    ∧ (∀ (e : String) (st : ShopState),
      (updateUser (.error e) st).notices = [.failure e])
    ∧ (∀ (p : UserProfile) (st : ShopState),
      (updateUser (.ok p) st).notices = [.success "Profile updated successfully"])
    ∧ (∀ (cu : Option User) (e : String) (l : Except String (List Address)) (st : ShopState),
      (addAddress cu (.error e) l st).notices = [.failure e])
    ∧ (∀ (cu : Option User) (a : Address) (l : Except String (List Address)) (st : ShopState),
      (addAddress cu (.ok a) l st).notices = [.success "Address added successfully"])
    ∧ (∀ (i : String) (cu : Option User) (e : String) (l : Except String (List Address)) (st : ShopState),
      (updateAddress i cu (.error e) l st).notices = [.failure e])
    ∧ (∀ (i : String) (cu : Option User) (a : Address) (l : Except String (List Address)) (st : ShopState),
      (updateAddress i cu (.ok a) l st).notices = [.success "Address updated successfully"])
    ∧ (∀ (i : String) (cu : Option User) (e : String) (l : Except String (List Address)) (st : ShopState),
      (deleteAddress i cu (.error e) l st).notices = [.failure e])
    ∧ (∀ (i : String) (cu : Option User) (l : Except String (List Address)) (st : ShopState),
      (deleteAddress i cu (.ok ()) l st).notices = [.success "Address deleted successfully"])
    ∧ (∀ (i : String) (cu : Option User) (e : String) (l : Except String (List Address)) (st : ShopState),
      (setDefaultAddress i cu (.error e) l st).notices = [.failure e])
    ∧ (∀ (i : String) (cu : Option User) (as : List Address) (l : Except String (List Address)) (st : ShopState),
      (setDefaultAddress i cu (.ok as) l st).notices = [.success "Default address updated"])
    ∧ (∀ (pm aid : String) (svc : CreateOrderRequest → Except String Order) (captured st : ShopState),
      (createOrder pm aid svc { captured with cart := none } st).notices
        = [.failure "Cart is empty"])
    ∧ (∀ (pm aid e : String) (c : Cart) (captured st : ShopState),
      (createOrder pm aid (fun _ => .error e) { captured with cart := some c } st).notices
        = [.failure e])
    ∧ (∀ (pm aid : String) (o : Order) (c : Cart) (captured st : ShopState),
      (createOrder pm aid (fun _ => .ok o) { captured with cart := some c } st).notices
        = [.success "Order placed successfully!"])
    ∧ (∀ (oid : String) (its : List JVal) (rsn e : String)
        (l : Except String ReturnListResponse) (st : ShopState),
      (createReturnRequest oid its rsn (.error e) l st).notices = [.failure e])
    ∧ (∀ (oid : String) (its : List JVal) (rsn : String) (r : Return)
        (l : Except String ReturnListResponse) (st : ShopState),
      (createReturnRequest oid its rsn (.ok r) l st).notices
        = [.success "Return request submitted successfully"])
    ∧ (∀ (i e : String) (st : ShopState),
      (markNotificationRead i (.error e) st).notices = [.failure e])
    ∧ (∀ (i : String) (st : ShopState),
      (markNotificationRead i (.ok ()) st).notices = [])
    ∧ (∀ (code e : String) (l : Except String Cart) (st : ShopState),
      (applyPromoCode code (.error e) l st).notices = [.failure e]
        ∧ (applyPromoCode code (.error e) l st).result = .ok false)
    ∧ (∀ (code : String) (c : Cart) (l : Except String Cart) (st : ShopState),
      (applyPromoCode code (.ok c) l st).notices =
        match promoFind code with
        | some _ => [.success "Promo code applied successfully"]
        | none => [])
    ∧ (∀ (e : String) (l : Except String Cart) (st : ShopState),
      (removePromoCode (.error e) l st).notices = [.failure e])
    ∧ (∀ (c : Cart) (l : Except String Cart) (st : ShopState),
      (removePromoCode (.ok c) l st).notices = [.success "Promo code removed"]) := by
  refine ⟨fun _ _ _ _ _ _ _ => rfl, fun _ _ _ _ _ _ _ => rfl,
    fun _ _ _ _ => rfl, fun _ _ _ _ => rfl,
    fun _ _ _ _ _ => rfl, fun _ _ _ _ _ => rfl,
    fun _ _ => rfl, fun _ => rfl,
    fun _ _ _ _ _ => rfl, fun _ _ _ _ _ => rfl,
    fun _ _ => rfl, fun _ _ => rfl,
    fun _ _ _ _ => rfl, fun _ _ _ _ => rfl,
    fun _ _ _ _ _ => rfl, fun _ _ _ _ _ => rfl,
    fun _ _ _ _ _ => rfl, fun _ _ _ _ => rfl,
    fun _ _ _ _ _ => rfl, fun _ _ _ _ _ => rfl,
    fun _ _ _ _ _ => rfl, fun _ _ _ _ _ _ => rfl, fun _ _ _ _ _ _ => rfl,
    fun _ _ _ _ _ _ => rfl, fun _ _ _ _ _ _ => rfl,
    fun _ _ _ => rfl, fun _ _ => rfl,
    fun _ _ _ _ => ⟨rfl, rfl⟩, ?_,
    fun _ _ _ => rfl, fun _ _ _ => rfl⟩
  intro code c l st
  cases hp : promoFind code <;> simp [applyPromoCode, hp]

/-- C8: a successful `markNotificationRead(id)` patches only the
matching notification locally — it dispatches no notification re-fetch,
resolves without error, preserves the list length, keeps every
notification with a different id, and maps a matching one to itself with
`read := true`; a second identical call leaves the state exactly as
after the first and again resolves without error. -/
theorem C8_markNotificationRead_local_idempotent_patch (id : String) (store : ShopState) :
    "userService.getNotifications" ∉ (markNotificationRead id (.ok ()) store).calls
    ∧ (markNotificationRead id (.ok ()) store).result = .ok ()
    ∧ (markNotificationRead id (.ok ()) store).notices = []
    ∧ (markNotificationRead id (.ok ()) store).state.notifications.length
        = store.notifications.length
    ∧ (∀ n ∈ store.notifications, n.id ≠ id →
        n ∈ (markNotificationRead id (.ok ()) store).state.notifications)
    ∧ (∀ n ∈ store.notifications, n.id = id →
        { n with read := true } ∈ (markNotificationRead id (.ok ()) store).state.notifications)
    ∧ (markNotificationRead id (.ok ())
        (markNotificationRead id (.ok ()) store).state).state
        = (markNotificationRead id (.ok ()) store).state
    ∧ (markNotificationRead id (.ok ())
        (markNotificationRead id (.ok ()) store).state).result = .ok () := by
  have hcalls : (markNotificationRead id (.ok ()) store).calls
      = ["userService.markNotificationRead"] := rfl
  have hstate : (markNotificationRead id (.ok ()) store).state.notifications
      = store.notifications.map
          (fun notif => if notif.id = id then { notif with read := true } else notif) := rfl
  have hidem : ∀ l : List Notification,
      (l.map (fun notif => if notif.id = id then { notif with read := true } else notif)).map
          (fun notif => if notif.id = id then { notif with read := true } else notif)
        = l.map (fun notif => if notif.id = id then { notif with read := true } else notif) := by
    intro l
    rw [List.map_map]
    apply List.map_congr_left
    intro n _
    by_cases h : n.id = id
    · simp [Function.comp, h]
    · simp [Function.comp, h]
  refine ⟨?_, rfl, rfl, ?_, ?_, ?_, ?_, rfl⟩
  · rw [hcalls]
    decide
  · rw [hstate]
    exact List.length_map _ _
  · intro n hn hne
    rw [hstate]
    have hfix : (fun notif =>
        if notif.id = id then { notif with read := true } else notif) n = n := by
      simp [hne]
    have hmem := List.mem_map_of_mem
      (fun notif => if notif.id = id then { notif with read := true } else notif) hn
    rw [hfix] at hmem
    exact hmem
  · intro n hn heq
    rw [hstate]
    have hfix : (fun notif =>
        if notif.id = id then { notif with read := true } else notif) n
        = { n with read := true } := by
      simp [heq]
    have hmem := List.mem_map_of_mem
      (fun notif => if notif.id = id then { notif with read := true } else notif) hn
    rw [hfix] at hmem
    exact hmem
  · show ({ (markNotificationRead id (.ok ()) store).state with
        notifications := (markNotificationRead id (.ok ()) store).state.notifications.map
          (fun notif => if notif.id = id then { notif with read := true } else notif) }
      : ShopState) = (markNotificationRead id (.ok ()) store).state
    rw [hstate, hidem store.notifications, ← hstate]

/-- C8 witness: marking `n1` read in the sample store patches `n1` and
keeps `n2` untouched. -/
theorem C8_markNotificationRead_witness :
    { notifA with read := true }
        ∈ (markNotificationRead "n1" (.ok ()) notifState).state.notifications
    ∧ notifB ∈ (markNotificationRead "n1" (.ok ()) notifState).state.notifications := by
  have h := C8_markNotificationRead_local_idempotent_patch "n1" notifState
  refine ⟨h.2.2.2.2.2.1 notifA ?_ rfl, h.2.2.2.2.1 notifB ?_ ?_⟩
  · show notifA ∈ notifState.notifications
    simp [notifState]
  · show notifB ∈ notifState.notifications
    simp [notifState]
  · show notifB.id ≠ "n1"
    decide

end Shop
